import Mathlib

/-!
Verification of the console/reporting layer of a mutation-testing engine
(`src/console.rs`), over a shallow embedding of its data model.

The types `Phase`, `CargoResult`, `Scenario`, `Mutation`, `Outcome` and
`Options`, and the `Outcome` helper methods, are declared in repository
files not included here (`outcome.rs`, `lab.rs`, `mutate.rs`, `options.rs`);
they are modelled from the spec where so noted.  The functions of
`console.rs` itself are translated directly from the source.  Terminal
styling (colors, bold) carries no information beyond the text, so styled
strings are embedded as their plain text content.
-/

namespace Cm

/-- Modelled from the spec: one pipeline stage, `Check`, `Build` or `Test`,
executed in that fixed order (spec §3 Phase; declared in `outcome.rs`,
not in the provided sources). -/
inductive Phase where
  | Check
  | Build
  | Test
deriving DecidableEq

/-- Modelled from the spec: per-phase status `Success`, `Failure` or
`Timeout` (spec §3 PhaseResult; the source calls it `CargoResult`,
declared outside the provided sources). -/
inductive CargoResult where
  | Success
  | Failure
  | Timeout
deriving DecidableEq

/-- Modelled from the spec: an immutable description of one candidate edit,
with a human-readable location string, the enclosing function name, its
declared return type (may be empty), the replacement text, and a unified
diff of the edit (spec §3 Mutation; accessor methods of `mutate.rs` become
fields). -/
structure Mutation where
  describe_location : String
  function_name : String
  return_type : String
  replacement_text : String
  diff : String
deriving DecidableEq

/-- Modelled from the spec: what is being evaluated — the pristine source
tree, the unmutated baseline, or one mutant together with the stored
mutation index and the total mutant count (spec §3 Scenario; declared in
`lab.rs`, not in the provided sources; the field names `i_mutation` and
`n_mutations` are taken from the pattern match in `console.rs`). -/
inductive Scenario where
  | SourceTree
  | Baseline
  | Mutant (mutation : Mutation) (i_mutation : Nat) (n_mutations : Nat)
deriving DecidableEq

/-- Modelled from the spec: predicate that a scenario is a `Mutant`
(`Scenario::is_mutant`, declared outside the provided sources). -/
def Scenario.is_mutant : Scenario → Bool
  | .Mutant _ _ _ => true
  | _ => false

/-- Modelled from the spec: the terminal record for a scenario — the
scenario, the ordered sequence of (Phase, PhaseResult) pairs actually
executed, and the captured log output (spec §3 Outcome; declared in
`outcome.rs`, not in the provided sources). -/
structure Outcome where
  scenario : Scenario
  phase_results : List (Phase × CargoResult)
  log_content : String
deriving DecidableEq

/-- The last element of a phase-result sequence, `none` on the empty
sequence (where `phase_results.last().unwrap()` would panic). -/
def last_pr : List (Phase × CargoResult) → Option (Phase × CargoResult)
  | [] => none
  | [pr] => some pr
  | _ :: pr2 :: rest => last_pr (pr2 :: rest)

/-- Modelled from the spec: `Outcome::last_phase` paired with
`Outcome::last_phase_result` — the phase and result of the last executed
phase (declared in `outcome.rs`, not in the provided sources). -/
def Outcome.last (o : Outcome) : Option (Phase × CargoResult) :=
  last_pr o.phase_results

/-- Modelled from the spec: `Outcome::last_phase`. -/
def Outcome.last_phase (o : Outcome) : Option Phase :=
  o.last.map Prod.fst

/-- Modelled from the spec: `Outcome::last_phase_result`. -/
def Outcome.last_phase_result (o : Outcome) : Option CargoResult :=
  o.last.map Prod.snd

/-- Modelled from the spec: `Outcome::mutant_caught` — the scenario is a
mutant and the Test phase ran and failed, i.e. the test suite detected the
mutation (spec §3 Status `Caught`; declared in `outcome.rs`, not in the
provided sources). -/
def Outcome.mutant_caught (o : Outcome) : Bool :=
  o.scenario.is_mutant && o.last == some (.Test, .Failure)

/-- Modelled from the spec: `Outcome::check_or_build_failed` — the terminal
phase was Check or Build and it returned `Failure`, i.e. the mutant did not
compile (spec §3 Status `Unviable`; declared in `outcome.rs`, not in the
provided sources). -/
def Outcome.check_or_build_failed (o : Outcome) : Bool :=
  match o.last with
  | some (p, r) => (p == .Check || p == .Build) && r == .Failure
  | none => false

/-- Modelled from the spec: the derived, not stored, final classification
of a mutant (spec §3 Status). -/
inductive Status where
  | Caught
  | Missed
  | Unviable
  | Timeout
deriving DecidableEq

/-- Modelled from the spec: the Status derivation rule for `Mutant`
scenarios (spec §3 together with the §8 classification invariant:
`Unviable` iff the terminal phase result is a `Failure`/`Timeout` at Check
or Build, never at Test; `Caught` iff Test ran and returned `Failure`;
`Missed` iff Test ran and returned `Success`; `Timeout` at Test otherwise).
The spec assigns no Status to a mutant whose terminal phase succeeded
without Test running, nor to non-mutant scenarios, so those map to `none`. -/
def classify (o : Outcome) : Option Status :=
  if o.scenario.is_mutant then
    match o.last with
    | some (.Test, .Failure) => some .Caught
    | some (.Test, .Success) => some .Missed
    | some (.Check, .Failure) => some .Unviable
    | some (.Check, .Timeout) => some .Unviable
    | some (.Build, .Failure) => some .Unviable
    | some (.Build, .Timeout) => some .Unviable
    | some (.Test, .Timeout) => some .Timeout
    | _ => none
  else none

/-- Options, from `Options` (declared outside the provided sources): only
the fields read by `console.rs` are embedded. -/
structure Options where
  show_times : Bool
  print_caught : Bool
  print_unviable : Bool
  show_all_logs : Bool
deriving DecidableEq

/-- From `style_mutation` in `console.rs`: format
`"{}: replace {}{}{} with {}"` over the location, function name, a space
iff the return type is non-empty, the return type, and the replacement
text. -/
def style_mutation (m : Mutation) : String :=
  m.describe_location ++ ": replace " ++ m.function_name ++
    (if m.return_type.isEmpty then "" else " ") ++
    m.return_type ++ " with " ++ m.replacement_text

/-- From `style_outcome` in `console.rs`: the styled text for an outcome,
as its plain content.  `none` stands for the panic of
`phase_results.last().unwrap()` on an empty phase sequence; every match arm
of the source appears in source order. -/
def style_outcome (o : Outcome) : Option String :=
  match o.scenario with
  | .SourceTree | .Baseline =>
    match o.last_phase_result with
    | some .Success => some "ok"
    | some .Failure => some "FAILED"
    | some .Timeout => some "TIMEOUT"
    | none => none
  | .Mutant _ _ _ =>
    match o.last with
    | some (.Test, .Failure) => some "caught"
    | some (.Test, .Success) => some "NOT CAUGHT"
    | some (.Build, .Success) => some "build ok"
    | some (.Check, .Success) => some "check ok"
    | some (.Build, .Failure) => some "build failed"
    | some (.Check, .Failure) => some "check failed"
    | some (_, .Timeout) => some "TIMEOUT"
    | none => none

/-- From `Console::start_scenario` in `console.rs`: the
`overall_progress` counter stored on the activity — `None` for the source
tree and baseline, `Some((i_mutation + 1, n_mutations))` for a mutant. -/
def start_scenario_progress : Scenario → Option (Nat × Nat)
  | .Mutant _ i n => some (i + 1, n)
  | _ => none

/-- From `Activity::set_phase` in `console.rs`: the progress-bar message
`"{overall_text}{task} ({phase})"` where `overall_text` is `""` without an
overall progress counter and `"[{a}/{b}] "` with one. -/
def set_phase_message (overall : Option (Nat × Nat)) (task phase : String) :
    String :=
  (match overall with
   | none => ""
   | some (a, b) => "[" ++ toString a ++ "/" ++ toString b ++ "] ") ++
    task ++ " (" ++ phase ++ ")"

/-- From `list_mutations` in `console.rs`: the sequence of lines printed —
for each mutation in order, its description, followed by its diff when
`show_diffs` is set. -/
def list_mutations : List Mutation → Bool → List String
  | [], _ => []
  | m :: rest, show_diffs =>
    (style_mutation m ::
      (if show_diffs then [m.diff] else [])) ++ list_mutations rest show_diffs

/-- What `Activity::outcome` emits: nothing, or the outcome line optionally
followed by the captured log content. -/
inductive OutcomeDisplay where
  | silent
  | printed (line : String) (log : Option String)
deriving DecidableEq

/-- From `Activity::outcome` in `console.rs`: suppress the whole report for
a caught mutant unless `print_caught`, and for a mutant whose check or
build failed unless `print_unviable`; otherwise print the outcome line and,
when `should_show_logs` holds of the outcome or `show_all_logs` is set, the
log content.  `should_show_logs` (an `Outcome` method declared outside the
provided sources and not described by the spec) is taken as a parameter;
the wall-clock elapsed-time suffix controlled by `show_times` is real-time
output and is not embedded. -/
def activity_outcome (task : String) (should_show_logs : Outcome → Bool)
    (o : Outcome) (options : Options) : OutcomeDisplay :=
  if (o.mutant_caught && !options.print_caught)
      || (o.scenario.is_mutant && o.check_or_build_failed
            && !options.print_unviable) then
    .silent
  else
    .printed (task ++ " ... " ++ (style_outcome o).getD "")
      (if should_show_logs o || options.show_all_logs then
        some o.log_content
      else
        none)

/-- From `format_mb` in `console.rs`: `"{} MB"` over `bytes / 1_000_000`
(truncating `u64` division; byte counts are below `2 ^ 64`). -/
def format_mb (bytes : Nat) : String :=
  toString (bytes / 1000000) ++ " MB"

/-- From `style_mb` in `console.rs`: `format_mb` styled cyan; as plain
text content it is `format_mb` itself. -/
def style_mb (bytes : Nat) : String :=
  format_mb bytes

/-- A concrete mutation used to instantiate theorems on concrete inputs. -/
def m0 : Mutation :=
  { describe_location := "src/lib.rs:4"
    function_name := "half"
    return_type := "i64"
    replacement_text := "0"
    diff := "@@ -4 +4 @@" }

/-- A nonempty phase-result sequence has a last element. -/
theorem last_pr_ne_nil (l : List (Phase × CargoResult)) (h : l ≠ []) :
    ∃ pr, last_pr l = some pr := by
  induction l with
  | nil => exact absurd rfl h
  | cons a t ih =>
    cases t with
    | nil => exact ⟨a, rfl⟩
    | cons b t2 =>
      obtain ⟨pr, hpr⟩ := ih (by simp)
      exact ⟨pr, by simpa [last_pr] using hpr⟩

/-- `mutant_caught` unfolded to the phase sequence. -/
theorem mutant_caught_iff (o : Outcome) :
    o.mutant_caught = true ↔
      (o.scenario.is_mutant = true ∧ o.last = some (.Test, .Failure)) := by
  simp [Outcome.mutant_caught]

/-- `check_or_build_failed` unfolded to the last phase and its result. -/
theorem check_or_build_failed_iff (o : Outcome) :
    o.check_or_build_failed = true ↔
      ((o.last_phase = some .Check ∨ o.last_phase = some .Build)
        ∧ o.last_phase_result = some .Failure) := by
  unfold Outcome.check_or_build_failed Outcome.last_phase
    Outcome.last_phase_result
  rcases h : o.last with _ | ⟨p, r⟩
  · simp
  · cases p <;> cases r <;> simp

/-- C1: for every `Outcome` whose scenario is a `Mutant`, the derived
classification is `Caught` exactly when the last executed phase is Test
with result `Failure`, and `Missed` exactly when the last executed phase is
Test with result `Success`; `style_outcome` maps these two cases, and no
others, to `"caught"` and `"NOT CAUGHT"` respectively. -/
theorem C1_caught_missed (o : Outcome) (m : Mutation) (i n : Nat)
    (hs : o.scenario = .Mutant m i n) (hne : o.phase_results ≠ []) :
    (classify o = some .Caught ↔ o.last = some (.Test, .Failure))
    ∧ (classify o = some .Missed ↔ o.last = some (.Test, .Success))
    ∧ (style_outcome o = some "caught" ↔ o.last = some (.Test, .Failure))
    ∧ (style_outcome o = some "NOT CAUGHT" ↔
        o.last = some (.Test, .Success)) := by
  obtain ⟨⟨p, r⟩, hpr⟩ := last_pr_ne_nil o.phase_results hne
  have hl : o.last = some (p, r) := hpr
  cases p <;> cases r <;>
    simp [classify, style_outcome, Scenario.is_mutant, hs, hl]

/-- C1 witness: a mutant outcome whose Test phase failed is classified
`Caught` and rendered `"caught"`. -/
theorem C1_caught_missed_witness :
    classify ⟨.Mutant m0 0 1, [(.Test, .Failure)], ""⟩ = some .Caught
    ∧ style_outcome ⟨.Mutant m0 0 1, [(.Test, .Failure)], ""⟩ =
        some "caught" := by
  have h := C1_caught_missed ⟨.Mutant m0 0 1, [(.Test, .Failure)], ""⟩
    m0 0 1 rfl (by simp)
  exact ⟨h.1.mpr rfl, h.2.2.1.mpr rfl⟩

/-- C2: for every mutant outcome, the classification is `Unviable` iff the
terminal phase result is a `Failure` or `Timeout` at Check or Build (never
at Test); and the rendering of any mutant outcome whose terminal Check or
Build phase did not succeed differs from the rendering of any mutant
outcome whose Test phase succeeded. -/
theorem C2_unviable_distinct (o : Outcome) (m : Mutation) (i n : Nat)
    (hs : o.scenario = .Mutant m i n) (hne : o.phase_results ≠ []) :
    (classify o = some .Unviable ↔
      ((o.last_phase = some .Check ∨ o.last_phase = some .Build)
        ∧ (o.last_phase_result = some .Failure
            ∨ o.last_phase_result = some .Timeout)))
    ∧ ∀ (o2 : Outcome) (m2 : Mutation) (i2 n2 : Nat),
        o2.scenario = .Mutant m2 i2 n2 →
        (o.last_phase = some .Check ∨ o.last_phase = some .Build) →
        o.last_phase_result ≠ some .Success →
        o2.last = some (.Test, .Success) →
        style_outcome o ≠ style_outcome o2 := by
  obtain ⟨⟨p, r⟩, hpr⟩ := last_pr_ne_nil o.phase_results hne
  have hl : o.last = some (p, r) := hpr
  constructor
  · cases p <;> cases r <;>
      simp [classify, Scenario.is_mutant, Outcome.last_phase,
        Outcome.last_phase_result, hs, hl]
  · intro o2 m2 i2 n2 hs2 hcb hns hl2
    have h2 : style_outcome o2 = some "NOT CAUGHT" := by
      simp [style_outcome, hs2, hl2]
    rw [h2]
    cases p <;> cases r <;>
      simp_all [style_outcome, Outcome.last_phase,
        Outcome.last_phase_result, hs, hl]

/-- C2 witness: a mutant whose Build phase failed is `Unviable`, and its
rendering differs from that of a missed mutant. -/
theorem C2_unviable_distinct_witness :
    classify ⟨.Mutant m0 0 2, [(.Build, .Failure)], ""⟩ = some .Unviable
    ∧ style_outcome ⟨.Mutant m0 0 2, [(.Build, .Failure)], ""⟩ ≠
        style_outcome ⟨.Mutant m0 1 2, [(.Test, .Success)], ""⟩ := by
  have h := C2_unviable_distinct ⟨.Mutant m0 0 2, [(.Build, .Failure)], ""⟩
    m0 0 2 rfl (by simp)
  refine ⟨h.1.mpr ⟨Or.inr rfl, Or.inl rfl⟩, ?_⟩
  exact h.2 ⟨.Mutant m0 1 2, [(.Test, .Success)], ""⟩ m0 1 2 rfl
    (Or.inr rfl) (by simp [Outcome.last_phase_result, Outcome.last, last_pr])
    rfl

/-- C3 counterexample: the progress display for a mutant scenario is not
the stored pair `(i, n)` — a mutant stored with index 1 of 3 is displayed
as `(2, 3)`, not `(1, 3)`. -/
theorem C3_counterexample :
    start_scenario_progress (.Mutant m0 1 3) ≠ some (1, 3) := by
  simp [start_scenario_progress]

/-- C3 amended: a `Mutant` scenario stores the mutation's 0-based index
`i_mutation` and the total count; the start event / progress display shows
the 1-based pair `(i_mutation + 1, n_mutations)`, rendered in the progress
message as `"[i+1/n] "` before the task and phase. -/
theorem C3_progress_amended (m : Mutation) (i n : Nat) :
    start_scenario_progress (.Mutant m i n) = some (i + 1, n)
    ∧ ∀ task phase,
        set_phase_message (start_scenario_progress (.Mutant m i n))
          task phase =
        "[" ++ toString (i + 1) ++ "/" ++ toString n ++ "] " ++ task ++
          " (" ++ phase ++ ")" := by
  exact ⟨rfl, fun task phase => rfl⟩

/-- C4: for `SourceTree` and `Baseline` scenarios, the rendering depends
only on the last phase's result: any two such outcomes with equal
last-phase results render identically, with `Success` mapped to `"ok"`,
`Failure` to `"FAILED"` and `Timeout` to `"TIMEOUT"`. -/
theorem C4_tree_baseline (o o2 : Outcome)
    (h1 : o.scenario = .SourceTree ∨ o.scenario = .Baseline)
    (h2 : o2.scenario = .SourceTree ∨ o2.scenario = .Baseline)
    (heq : o.last_phase_result = o2.last_phase_result) :
    style_outcome o = style_outcome o2
    ∧ (o.last_phase_result = some .Success → style_outcome o = some "ok")
    ∧ (o.last_phase_result = some .Failure →
        style_outcome o = some "FAILED")
    ∧ (o.last_phase_result = some .Timeout →
        style_outcome o = some "TIMEOUT") := by
  have hso : ∀ (o3 : Outcome),
      o3.scenario = .SourceTree ∨ o3.scenario = .Baseline →
      style_outcome o3 =
        match o3.last_phase_result with
        | some .Success => some "ok"
        | some .Failure => some "FAILED"
        | some .Timeout => some "TIMEOUT"
        | none => none := by
    intro o3 h3
    rcases h3 with h3 | h3 <;> simp [style_outcome, h3]
  rw [hso o h1, hso o2 h2, heq]
  rcases hr : o2.last_phase_result with _ | r
  · simp [heq ▸ hr]
  · cases r <;> simp [heq ▸ hr]

/-- C4 witness: a `SourceTree` outcome failing at Build and a `Baseline`
outcome failing at Test render identically as `"FAILED"`. -/
theorem C4_tree_baseline_witness :
    style_outcome ⟨.SourceTree, [(.Build, .Failure)], ""⟩ =
      style_outcome ⟨.Baseline, [(.Check, .Success), (.Test, .Failure)], ""⟩
    ∧ style_outcome ⟨.SourceTree, [(.Build, .Failure)], ""⟩ =
        some "FAILED" := by
  have h := C4_tree_baseline ⟨.SourceTree, [(.Build, .Failure)], ""⟩
    ⟨.Baseline, [(.Check, .Success), (.Test, .Failure)], ""⟩
    (Or.inl rfl) (Or.inr rfl) rfl
  exact ⟨h.1, h.2.2.1 rfl⟩

/-- C5: every outcome, of any scenario kind, whose last phase result is
`Timeout` renders as `"TIMEOUT"`, independent of which phase exceeded its
time budget. -/
theorem C5_timeout (o : Outcome)
    (h : o.last_phase_result = some .Timeout) :
    style_outcome o = some "TIMEOUT" := by
  rcases hl : o.last with _ | ⟨p, r⟩
  · simp [Outcome.last_phase_result, hl] at h
  · have hr : r = .Timeout := by
      simpa [Outcome.last_phase_result, hl] using h
    subst hr
    rcases hsc : o.scenario with _ | _ | ⟨m, i, n⟩ <;> cases p <;>
      simp [style_outcome, Outcome.last_phase_result, hl, hsc]

/-- C5 witness: a mutant timing out at Build renders as `"TIMEOUT"`. -/
theorem C5_timeout_witness :
    style_outcome ⟨.Mutant m0 0 1, [(.Build, .Timeout)], ""⟩ =
      some "TIMEOUT" :=
  C5_timeout ⟨.Mutant m0 0 1, [(.Build, .Timeout)], ""⟩ rfl

/-- C6: `list_mutations` prints, for each mutation in the input in order,
exactly one description line, with the mutation's unified diff immediately
after that line iff `show_diffs` is set: without diffs the output is
exactly the description lines in order, with diffs it is exactly each
description followed by its diff. -/
theorem C6_list_mutations (muts : List Mutation) :
    list_mutations muts false = muts.map style_mutation
    ∧ list_mutations muts true =
        muts.flatMap (fun m => [style_mutation m, m.diff]) := by
  constructor <;> induction muts <;> simp [list_mutations, *]

/-- C7: `Activity::outcome` is silent exactly for a caught mutant without
`print_caught`, or a mutant whose terminal Check or Build phase failed
without `print_unviable`; in every other case it prints the outcome line,
with the captured log content iff the outcome's `should_show_logs`
predicate holds or `show_all_logs` is set. -/
theorem C7_outcome_printing (task : String) (ssl : Outcome → Bool)
    (o : Outcome) (options : Options) :
    (activity_outcome task ssl o options = .silent ↔
      (o.scenario.is_mutant = true
        ∧ ((o.last = some (.Test, .Failure) ∧ options.print_caught = false)
          ∨ ((o.last_phase = some .Check ∨ o.last_phase = some .Build)
              ∧ o.last_phase_result = some .Failure
              ∧ options.print_unviable = false))))
    ∧ (activity_outcome task ssl o options = .silent
        ∨ activity_outcome task ssl o options =
            .printed (task ++ " ... " ++ (style_outcome o).getD "")
              (if ssl o || options.show_all_logs then some o.log_content
               else none))
    ∧ ∀ line log, activity_outcome task ssl o options = .printed line log →
        (log = some o.log_content ↔
          (ssl o = true ∨ options.show_all_logs = true)) := by
  refine ⟨?_, ?_, ?_⟩
  · constructor
    · intro h
      unfold activity_outcome at h
      split at h
      · rename_i hcond
        rcases (Bool.or_eq_true _ _).mp hcond with h1 | h1
        · obtain ⟨hmc, hpc⟩ := (Bool.and_eq_true _ _).mp h1
          obtain ⟨hm, hlast⟩ := (mutant_caught_iff o).mp hmc
          exact ⟨hm, Or.inl ⟨hlast, by simpa using hpc⟩⟩
        · obtain ⟨h2, hpu⟩ := (Bool.and_eq_true _ _).mp h1
          obtain ⟨hm, hcb⟩ := (Bool.and_eq_true _ _).mp h2
          obtain ⟨hph, hres⟩ := (check_or_build_failed_iff o).mp hcb
          exact ⟨hm, Or.inr ⟨hph, hres, by simpa using hpu⟩⟩
      · exact absurd h (by simp)
    · rintro ⟨hm, hcase | hcase⟩
      · have hmc : o.mutant_caught = true :=
          (mutant_caught_iff o).mpr ⟨hm, hcase.1⟩
        have hc1 : (o.mutant_caught && !options.print_caught) = true := by
          simp [hmc, hcase.2]
        simp [activity_outcome, hc1]
      · have hcb : o.check_or_build_failed = true :=
          (check_or_build_failed_iff o).mpr ⟨hcase.1, hcase.2.1⟩
        have hc2 : (o.scenario.is_mutant && o.check_or_build_failed
            && !options.print_unviable) = true := by
          simp [hm, hcb, hcase.2.2]
        simp [activity_outcome, hc2]
  · unfold activity_outcome
    split
    · exact Or.inl rfl
    · exact Or.inr rfl
  · intro line log h
    unfold activity_outcome at h
    split at h
    · exact absurd h (by simp)
    · have hlog : log = (if ssl o || options.show_all_logs then
          some o.log_content else none) := by
        cases h
        rfl
      subst hlog
      rcases hb : (ssl o || options.show_all_logs) with _ | _
      · simp only [Bool.or_eq_false_iff] at hb
        simp [hb.1, hb.2]
      · rcases Bool.or_eq_true _ _ |>.mp hb with h1 | h1 <;> simp [h1]

/-- C7 witness: a caught mutant is silent when `print_caught` is off, and
a missed mutant prints its log when `show_all_logs` is set. -/
theorem C7_outcome_printing_witness :
    activity_outcome "t" (fun _ => false)
      ⟨.Mutant m0 0 1, [(.Test, .Failure)], "log"⟩
      ⟨false, false, false, false⟩ = .silent
    ∧ activity_outcome "t" (fun _ => false)
        ⟨.Mutant m0 0 1, [(.Test, .Success)], "log"⟩
        ⟨false, false, false, true⟩ =
        .printed ("t ... NOT CAUGHT") (some "log") := by
  constructor
  · exact (C7_outcome_printing "t" (fun _ => false)
      ⟨.Mutant m0 0 1, [(.Test, .Failure)], "log"⟩
      ⟨false, false, false, false⟩).1.mpr ⟨rfl, Or.inl ⟨rfl, rfl⟩⟩
  · have h := (C7_outcome_printing "t" (fun _ => false)
      ⟨.Mutant m0 0 1, [(.Test, .Success)], "log"⟩
      ⟨false, false, false, true⟩).2.1
    rcases h with h | h
    · exact absurd ((C7_outcome_printing "t" (fun _ => false)
        ⟨.Mutant m0 0 1, [(.Test, .Success)], "log"⟩
        ⟨false, false, false, true⟩).1.mp h) (by decide)
    · simpa [style_outcome] using h

/-- C8: the copy-progress size is rendered in whole decimal megabytes by
truncating integer division — `format_mb` (and `style_mb`, its styled
form) shows `b / 1000000` followed by `" MB"`, so every byte count below
1,000,000 is reported as `"0 MB"`. -/
theorem C8_format_mb (b : Nat) (_h : b < 2 ^ 64) :
    format_mb b = toString (b / 1000000) ++ " MB"
    ∧ style_mb b = format_mb b
    ∧ (b < 1000000 → format_mb b = "0 MB") := by
  refine ⟨rfl, rfl, fun hb => ?_⟩
  have hz : b / 1000000 = 0 := Nat.div_eq_of_lt hb
  unfold format_mb
  rw [hz]
  decide

/-- C8 witness: 999,999 bytes — a completed copy just under a megabyte —
is reported as `"0 MB"`. -/
theorem C8_format_mb_witness : format_mb 999999 = "0 MB" :=
  (C8_format_mb 999999 (by norm_num)).2.2 (by norm_num)

/-- C9: `style_outcome` is total on every outcome with a nonempty executed
phase sequence — for every scenario kind and every (phase, result)
combination of the last phase, in particular all nine combinations of the
`Mutant` arm, it returns a rendering. -/
theorem C9_style_outcome_total (o : Outcome)
    (hne : o.phase_results ≠ []) :
    (style_outcome o).isSome = true := by
  obtain ⟨⟨p, r⟩, hpr⟩ := last_pr_ne_nil o.phase_results hne
  have hl : o.last = some (p, r) := hpr
  rcases hsc : o.scenario with _ | _ | ⟨m, i, n⟩ <;> cases p <;> cases r <;>
    simp [style_outcome, Outcome.last_phase_result, hl, hsc]

/-- C9 witness: the `Mutant` arm renders a Check success. -/
theorem C9_style_outcome_total_witness :
    (style_outcome ⟨.Mutant m0 0 1, [(.Check, .Success)], ""⟩).isSome =
      true :=
  C9_style_outcome_total ⟨.Mutant m0 0 1, [(.Check, .Success)], ""⟩
    (by simp)

/-- C10: the description of a mutation places a single space between the
function name and the return type iff the return type is non-empty, so a
unit-returning function (empty return type) is described with no doubled
space before `" with "`. -/
theorem C10_style_mutation_spacing (m : Mutation) :
    (m.return_type ≠ "" →
      style_mutation m =
        m.describe_location ++ ": replace " ++ m.function_name ++ " " ++
          m.return_type ++ " with " ++ m.replacement_text)
    ∧ (m.return_type = "" →
      style_mutation m =
        m.describe_location ++ ": replace " ++ m.function_name ++
          " with " ++ m.replacement_text) := by
  constructor <;> intro h
  · have he : m.return_type.isEmpty = false := by
      cases hb : m.return_type.isEmpty
      · rfl
      · exact absurd ((String.isEmpty_iff m.return_type).mp hb) h
    simp [style_mutation, he]
  · have he : ("" : String).isEmpty = true := rfl
    simp [style_mutation, h, he]

/-- C10 witness: a unit-returning mutation (empty return type) is
described with single spacing. -/
theorem C10_style_mutation_spacing_witness :
    style_mutation
      { describe_location := "src/lib.rs:9"
        function_name := "run"
        return_type := ""
        replacement_text := "()"
        diff := "" } =
      "src/lib.rs:9: replace run with ()" :=
  (C10_style_mutation_spacing _).2 rfl

end Cm
